import Mathlib

/-
  Verification development for the LoveCakes backend (product catalog and
  session-based shopping cart).

  Shallow embedding conventions:
  * SQL INT            -> Int
  * SQL NUMERIC(18,6)  -> Int, holding the number of 10^-6 currency units
                          (the procedures only add NUMERIC values and multiply
                          them by INT values, so this fixed-point view is
                          exact; 20.00 is the integer 20000000)
  * SQL BIT            -> Bool
  * SQL NVARCHAR       -> String
  * SQL DATETIME2      -> Int (an abstract timestamp; only ordering matters)
  * a nullable column  -> Option
  * a table            -> a List of rows; row order models physical scan order,
                          so SELECT ... = first match (List.find?)
  * THROW / TRY-CATCH  -> Except; the BEGIN TRAN / ROLLBACK wrapper of
                          spCartItemAdd is modelled by cartItemAddRun, which
                          returns the untouched input state on error
-/

namespace LoveCakes

/-- Row of [functional].[product] (columns used by the procedures under proof;
audit columns that no procedure reads are omitted). -/
structure Product where
  idProduct : Int
  idAccount : Int
  idCategory : Int
  idConfectioner : Int
  name : String
  description : String
  ingredients : String
  basePrice : Int
  promotionalPrice : Option Int
  isPromotion : Bool
  available : Bool
  stock : Int
  preparationTime : String
  averageRating : Int
  totalReviews : Int
  totalSales : Int
  dateCreated : Int
  deleted : Bool
  deriving DecidableEq

/-- Row of [functional].[confectioner]. -/
structure Confectioner where
  idConfectioner : Int
  idAccount : Int
  name : String
  photo : Option String
  averageRating : Int
  totalProductsSold : Int
  deleted : Bool
  deriving DecidableEq

/-- Row of [functional].[flavor]. -/
structure Flavor where
  idFlavor : Int
  idAccount : Int
  name : String
  description : String
  deleted : Bool
  deriving DecidableEq

/-- Row of [functional].[size]. -/
structure Size where
  idSize : Int
  idAccount : Int
  name : String
  description : String
  servings : Int
  priceModifier : Int
  deleted : Bool
  deriving DecidableEq

/-- Row of [functional].[productFlavor]. -/
structure ProductFlavor where
  idAccount : Int
  idProduct : Int
  idFlavor : Int
  available : Bool
  deriving DecidableEq

/-- Row of [functional].[productSize]. -/
structure ProductSize where
  idAccount : Int
  idProduct : Int
  idSize : Int
  available : Bool
  deriving DecidableEq

/-- Row of [functional].[productImage]. -/
structure ProductImage where
  idProductImage : Int
  idAccount : Int
  idProduct : Int
  imageUrl : String
  isPrimary : Bool
  displayOrder : Int
  deriving DecidableEq

/-- Row of [functional].[cart]. -/
structure Cart where
  idCart : Int
  idAccount : Int
  sessionId : String
  deriving DecidableEq

/-- Row of [functional].[cartItem]. -/
structure CartItem where
  idCartItem : Int
  idAccount : Int
  idCart : Int
  idProduct : Int
  idFlavor : Int
  idSize : Int
  quantity : Int
  unitPrice : Int
  totalPrice : Int
  observations : Option String
  deriving DecidableEq

/-- The database state: one list per table, plus the next IDENTITY value of the
two tables the cart procedure inserts into. -/
structure DB where
  products : List Product
  confectioners : List Confectioner
  flavors : List Flavor
  sizes : List Size
  productFlavors : List ProductFlavor
  productSizes : List ProductSize
  productImages : List ProductImage
  carts : List Cart
  cartItems : List CartItem
  nextCartId : Int
  nextCartItemId : Int
  deriving DecidableEq

/-- Parameters of [functional].[spCartItemAdd]. The SQL IS NULL checks on the
INT parameters are unrepresentable here (Int is never null); the remaining
validations are embedded below. -/
structure AddParams where
  idAccount : Int
  sessionId : String
  idProduct : Int
  idFlavor : Int
  idSize : Int
  quantity : Int
  observations : Option String
  deriving DecidableEq

/-- Business errors thrown (error 51000) by spCartItemAdd.  `nullConstraint`
models the constraint violation raised by the INSERT/UPDATE when the computed
@unitPrice is NULL (no matching product or size row, or a promotion flagged
with a NULL promotional price): the NOT NULL columns reject it and the CATCH
block rolls back. -/
inductive CartErr where
  | sessionIdRequired
  | quantityMustBeGreaterThanZero
  | quantityExceedsMaximum
  | productDoesntExist
  | productNotAvailable
  | flavorNotAvailable
  | sizeNotAvailable
  | nullConstraint
  deriving DecidableEq

/-- The single-row result set returned by spCartItemAdd (read back from the row
just written, whose primary key is @idCartItem). -/
structure CartItemResult where
  idCartItem : Int
  idCart : Int
  quantity : Int
  unitPrice : Int
  totalPrice : Int
  deriving DecidableEq

/-- Decidable equality for Except results, used to evaluate concrete runs. -/
instance exceptDecEq {e a : Type} [DecidableEq e] [DecidableEq a] :
    DecidableEq (Except e a) := fun x y =>
  match x, y with
  | .ok v, .ok w => if h : v = w then isTrue (by rw [h]) else isFalse (by simp [h])
  | .error v, .error w => if h : v = w then isTrue (by rw [h]) else isFalse (by simp [h])
  | .ok _, .error _ => isFalse (by simp)
  | .error _, .ok _ => isFalse (by simp)

/-- spCartItemAdd line 305: EXISTS of a non-deleted product row for the tenant. -/
def productExistsB (db : DB) (p : AddParams) : Bool :=
  db.products.any fun prd =>
    decide (prd.idAccount = p.idAccount) && decide (prd.idProduct = p.idProduct) && !prd.deleted

/-- spCartItemAdd line 316: EXISTS of an available, in-stock, non-deleted product row. -/
def productAvailableB (db : DB) (p : AddParams) : Bool :=
  db.products.any fun prd =>
    decide (prd.idAccount = p.idAccount) && decide (prd.idProduct = p.idProduct) &&
    prd.available && decide (0 < prd.stock) && !prd.deleted

/-- spCartItemAdd line 333: EXISTS of an available (product, flavor) association row. -/
def flavorAvailB (db : DB) (p : AddParams) : Bool :=
  db.productFlavors.any fun pf =>
    decide (pf.idAccount = p.idAccount) && decide (pf.idProduct = p.idProduct) &&
    decide (pf.idFlavor = p.idFlavor) && pf.available

/-- spCartItemAdd line 349: EXISTS of an available (product, size) association row. -/
def sizeAvailB (db : DB) (p : AddParams) : Bool :=
  db.productSizes.any fun ps =>
    decide (ps.idAccount = p.idAccount) && decide (ps.idProduct = p.idProduct) &&
    decide (ps.idSize = p.idSize) && ps.available

/-- spCartItemAdd lines 364-377: look up the cart of (tenant, session) and
create it when absent.  Returns the possibly-extended state and @idCart. -/
def cartLookup (db : DB) (p : AddParams) : DB × Int :=
  match db.carts.find? (fun c =>
      decide (c.idAccount = p.idAccount) && decide (c.sessionId = p.sessionId)) with
  | some c => (db, c.idCart)
  | none =>
      ({ db with
          carts := db.carts ++ [{ idCart := db.nextCartId, idAccount := p.idAccount,
                                  sessionId := p.sessionId }],
          nextCartId := db.nextCartId + 1 },
        db.nextCartId)

/-- spCartItemAdd lines 382-394: @unitPrice = (promotional price when flagged,
else base price) + the size price modifier.  `none` is the SQL NULL that
results when the SELECT matches no row (or the promotional price is NULL). -/
def computedUnitPrice (db : DB) (p : AddParams) : Option Int :=
  match db.products.find? (fun prd =>
          decide (prd.idAccount = p.idAccount) && decide (prd.idProduct = p.idProduct)),
        db.sizes.find? (fun siz =>
          decide (siz.idAccount = p.idAccount) && decide (siz.idSize = p.idSize)) with
  | some prd, some siz =>
      (if prd.isPromotion then prd.promotionalPrice else some prd.basePrice).map
        (fun basis => basis + siz.priceModifier)
  | _, _ => none

/-- spCartItemAdd lines 404-412: look up an existing cart item for
(tenant, cart, product, flavor, size). -/
def itemLookup (db : DB) (p : AddParams) : Option CartItem :=
  let dc := cartLookup db p
  dc.1.cartItems.find? fun it =>
    decide (it.idAccount = p.idAccount) && decide (it.idCart = dc.2) &&
    decide (it.idProduct = p.idProduct) && decide (it.idFlavor = p.idFlavor) &&
    decide (it.idSize = p.idSize)

/-- The UPDATE of spCartItemAdd lines 428-434 applied to the matched row: new
quantity, total price recomputed from the fresh @unitPrice (the stored
unitPrice column is not in the SET list), observations only when supplied
(COALESCE). -/
def mergedItem (existing : CartItem) (p : AddParams) (u : Int) : CartItem :=
  { existing with
      quantity := existing.quantity + p.quantity,
      totalPrice := u * (existing.quantity + p.quantity),
      observations :=
        match p.observations with
        | some o => some o
        | none => existing.observations }

/-- The state after the UPDATE: every row carrying the matched primary key is
replaced. -/
def mergeDB (db1 : DB) (existing : CartItem) (p : AddParams) (u : Int) : DB :=
  { db1 with
    cartItems := db1.cartItems.map fun it =>
      if it.idCartItem = existing.idCartItem then mergedItem existing p u else it }

/-- The row built by the INSERT of spCartItemAdd lines 438-459. -/
def insertedItem (db1 : DB) (idCart : Int) (p : AddParams) (u : Int) : CartItem :=
  { idCartItem := db1.nextCartItemId, idAccount := p.idAccount, idCart := idCart,
    idProduct := p.idProduct, idFlavor := p.idFlavor, idSize := p.idSize,
    quantity := p.quantity, unitPrice := u, totalPrice := u * p.quantity,
    observations := p.observations }

/-- The state after the INSERT. -/
def insertDB (db1 : DB) (idCart : Int) (p : AddParams) (u : Int) : DB :=
  { db1 with
    cartItems := db1.cartItems ++ [insertedItem db1 idCart p u],
    nextCartItemId := db1.nextCartItemId + 1 }

/-- The final result-set SELECT (lines 474-481), reading the row just written
back by its primary key. -/
def resultOf (it : CartItem) : CartItemResult :=
  { idCartItem := it.idCartItem, idCart := it.idCart, quantity := it.quantity,
    unitPrice := it.unitPrice, totalPrice := it.totalPrice }

/-- spCartItemAdd lines 361-481: the write phase that runs after all
validations pass (cart lookup or creation, price computation, merge-or-insert,
and the final result-set SELECT of the row just written). -/
def cartWrite (db : DB) (p : AddParams) : Except CartErr (DB × CartItemResult) :=
  let dc := cartLookup db p
  let unitPrice? := computedUnitPrice dc.1 p
  match itemLookup db p with
  | some existing =>
      if 10 < existing.quantity + p.quantity then .error .quantityExceedsMaximum
      else
        match unitPrice? with
        | none => .error .nullConstraint
        | some u =>
            .ok (mergeDB dc.1 existing p u, resultOf (mergedItem existing p u))
  | none =>
      match unitPrice? with
      | none => .error .nullConstraint
      | some u =>
          .ok (insertDB dc.1 dc.2 p u, resultOf (insertedItem dc.1 dc.2 p u))

/-- [functional].[spCartItemAdd]: validations in source order, then the write
phase. -/
def spCartItemAdd (db : DB) (p : AddParams) : Except CartErr (DB × CartItemResult) :=
  if p.sessionId.length = 0 then .error .sessionIdRequired
  else if p.quantity < 1 then .error .quantityMustBeGreaterThanZero
  else if 10 < p.quantity then .error .quantityExceedsMaximum
  else if !productExistsB db p then .error .productDoesntExist
  else if !productAvailableB db p then .error .productNotAvailable
  else if !flavorAvailB db p then .error .flavorNotAvailable
  else if !sizeAvailB db p then .error .sizeNotAvailable
  else cartWrite db p

/-- The BEGIN TRAN / COMMIT / CATCH-ROLLBACK wrapper: on any thrown error the
transaction is rolled back, so the state observed afterwards is the input
state. -/
def cartItemAddRun (db : DB) (p : AddParams) : DB × Except CartErr CartItemResult :=
  match spCartItemAdd db p with
  | .ok (db2, r) => (db2, .ok r)
  | .error e => (db, .error e)

/-- The cart item rows belonging to a (tenant, session, product, flavor, size)
tuple: rows with the matching item fields whose cart belongs to the session. -/
def tupleItems (db : DB) (p : AddParams) : List CartItem :=
  db.cartItems.filter fun it =>
    decide (it.idAccount = p.idAccount) && decide (it.idProduct = p.idProduct) &&
    decide (it.idFlavor = p.idFlavor) && decide (it.idSize = p.idSize) &&
    db.carts.any fun c =>
      decide (c.idCart = it.idCart) && decide (c.idAccount = p.idAccount) &&
      decide (c.sessionId = p.sessionId)

/-- Basic well-formedness of a state: IDENTITY counters are ahead of every id
already present (guaranteed by the schema, where both ids are IDENTITY
columns and cartItem.idCart is a foreign key into cart). -/
def dbWF (db : DB) : Bool :=
  (db.cartItems.all fun it =>
      decide (it.idCartItem < db.nextCartItemId) && decide (it.idCart < db.nextCartId)) &&
  (db.carts.all fun c => decide (c.idCart < db.nextCartId))

/-- Insertion into a sorted list under a Boolean preorder. -/
def insertLE {α : Type} (le : α → α → Bool) (a : α) : List α → List α
  | [] => [a]
  | b :: t => if le a b then a :: b :: t else b :: insertLE le a t

/-- A structurally recursive stable sort implementing ORDER BY for the given
Boolean preorder. -/
def sortLE {α : Type} (le : α → α → Bool) : List α → List α
  | [] => []
  | a :: t => insertLE le a (sortLE le t)

/-- Parameters of [functional].[spProductList].  The comma-separated id lists
keep their NVARCHAR representation and are split inside the predicate, as
STRING_SPLIT does. -/
structure ListParams where
  idAccount : Int
  page : Int
  pageSize : Int
  sortBy : String
  categoryIds : Option String
  flavorIds : Option String
  sizeIds : Option String
  minPrice : Option Int
  maxPrice : Option Int
  confectionerIds : Option String
  availability : String
  searchTerm : Option String
  deriving DecidableEq

/-- spProductList lines 98-101: a page below 1 falls back to 1. -/
def normPage (page : Int) : Int := if page < 1 then 1 else page

/-- spProductList lines 103-106: a page size outside {12, 24, 36} falls back to 12. -/
def normPageSize (ps : Int) : Int :=
  if ps = 12 ∨ ps = 24 ∨ ps = 36 then ps else 12

/-- spProductList lines 108-111: an unknown availability value falls back to
the default. -/
def normAvailability (a : String) : String :=
  if a = "disponivel" ∨ a = "indisponivel" ∨ a = "todos" then a else "disponivel"

/-- STRING_SPLIT on a comma followed by CAST to INT.  Tokens that are not
integer literals would make CAST fail; such inputs are outside the model. -/
def parseIdList (s : String) : List Int :=
  (s.splitOn ",").filterMap String.toInt?

/-- An `x IN (SELECT CAST(value AS INT) FROM STRING_SPLIT(ids))` filter,
vacuous when the parameter is NULL. -/
def idListFilter (ids : Option String) (x : Int) : Bool :=
  match ids with
  | none => true
  | some s => (parseIdList s).contains x

/-- The repeated CASE expression: promotional price when the promotion flag is
set, else the base price; NULL when the flag is set but the promotional price
is NULL. -/
def effPriceKey (prd : Product) : Option Int :=
  if prd.isPromotion then prd.promotionalPrice else some prd.basePrice

/-- spProductList lines 159-163: the availability disjunction.  Note that the
"indisponivel" arm tests stock = 0, not stock <= 0. -/
def availabilityPred (availability : String) (prd : Product) : Bool :=
  (decide (availability = "disponivel") && prd.available && decide (0 < prd.stock)) ||
  (decide (availability = "indisponivel") && (!prd.available || decide (prd.stock = 0))) ||
  decide (availability = "todos")

/-- spProductList lines 171-181: EXISTS of an available (product, flavor)
association whose flavor id is in the provided list. -/
def flavorListFilter (db : DB) (flavorIds : Option String) (prd : Product) : Bool :=
  match flavorIds with
  | none => true
  | some s =>
      db.productFlavors.any fun pf =>
        decide (pf.idAccount = prd.idAccount) && decide (pf.idProduct = prd.idProduct) &&
        (parseIdList s).contains pf.idFlavor && pf.available

/-- spProductList lines 182-192: EXISTS of an available (product, size)
association whose size id is in the provided list. -/
def sizeListFilter (db : DB) (sizeIds : Option String) (prd : Product) : Bool :=
  match sizeIds with
  | none => true
  | some s =>
      db.productSizes.any fun ps =>
        decide (ps.idAccount = prd.idAccount) && decide (ps.idProduct = prd.idProduct) &&
        (parseIdList s).contains ps.idSize && ps.available

/-- spProductList lines 193-201: effective price at least the minimum.  A NULL
effective price compares UNKNOWN, excluding the row. -/
def priceMinFilter (minPrice : Option Int) (prd : Product) : Bool :=
  match minPrice with
  | none => true
  | some m =>
      match effPriceKey prd with
      | some v => decide (m ≤ v)
      | none => false

/-- spProductList lines 202-210: effective price at most the maximum. -/
def priceMaxFilter (maxPrice : Option Int) (prd : Product) : Bool :=
  match maxPrice with
  | none => true
  | some m =>
      match effPriceKey prd with
      | some v => decide (v ≤ m)
      | none => false

/-- Whether the second character list occurs contiguously inside the first,
starting at the head. -/
def charsStart : List Char → List Char → Bool
  | _, [] => true
  | [], _ :: _ => false
  | h :: t, n :: m => h == n && charsStart t m

/-- Whether the second character list occurs contiguously anywhere inside the
first. -/
def charsContain : List Char → List Char → Bool
  | hay, [] => hay.length ≥ 0
  | [], _ :: _ => false
  | h :: t, n :: m => charsStart (h :: t) (n :: m) || charsContain t (n :: m)

/-- LIKE with a leading and trailing wildcard under the case-insensitive
default collation: substring match after lowering case.  Wildcards inside the
term itself are outside the model. -/
def likeContains (hay term : String) : Bool :=
  charsContain hay.toLower.toList term.toLower.toList

/-- spProductList lines 215-220: the search term matches the name, description
or ingredients. -/
def searchFilter (searchTerm : Option String) (prd : Product) : Bool :=
  match searchTerm with
  | none => true
  | some t => likeContains prd.name t || likeContains prd.description t ||
      likeContains prd.ingredients t

/-- The WHERE clause shared verbatim by the page query (lines 153-220) and the
count query (lines 255-316) of spProductList; applied to a joined
(product, confectioner) row. -/
def listPred (db : DB) (p : ListParams) (prd : Product) (cnf : Confectioner) : Bool :=
  decide (prd.idAccount = p.idAccount) && !prd.deleted && !cnf.deleted &&
  availabilityPred p.availability prd &&
  idListFilter p.categoryIds prd.idCategory &&
  flavorListFilter db p.flavorIds prd &&
  sizeListFilter db p.sizeIds prd &&
  priceMinFilter p.minPrice prd &&
  priceMaxFilter p.maxPrice prd &&
  idListFilter p.confectionerIds prd.idConfectioner &&
  searchFilter p.searchTerm prd

/-- The inner JOIN of product and confectioner on (idAccount, idConfectioner). -/
def joinedRows (db : DB) : List (Product × Confectioner) :=
  db.products.flatMap fun prd =>
    (db.confectioners.filter fun cnf =>
        decide (cnf.idAccount = prd.idAccount) &&
        decide (cnf.idConfectioner = prd.idConfectioner)).map
      fun cnf => (prd, cnf)

/-- The full match set of a listing query: the joined rows satisfying the
shared WHERE clause.  Both the page query (before ORDER BY / OFFSET / FETCH)
and the count query compute exactly this set. -/
def matchingRows (db : DB) (p : ListParams) : List (Product × Confectioner) :=
  (joinedRows db).filter fun pc => listPred db p pc.1 pc.2

/-- Three-way comparison on Int. -/
def cmpInt (a b : Int) : Ordering :=
  if a < b then .lt else if b < a then .gt else .eq

/-- Ascending comparison of nullable sort keys; SQL Server places NULLs first
in ascending order. -/
def cmpOptAsc (cmp : α → α → Ordering) : Option α → Option α → Ordering
  | none, none => .eq
  | none, some _ => .lt
  | some _, none => .gt
  | some a, some b => cmp a b

/-- Descending comparison of nullable sort keys; the reversal places NULLs
last, as SQL Server does in descending order. -/
def cmpOptDesc (cmp : α → α → Ordering) (a b : Option α) : Ordering :=
  cmpOptAsc cmp b a

/-- spProductList lines 221-237: the ORDER BY key chain.  Each CASE key is
NULL for every row unless its sort mode is selected, so exactly one key is
active, with ascending idProduct as the final tie-break. -/
def listOrd (sortBy : String) (x y : Product × Confectioner) : Ordering :=
  (cmpOptAsc cmpInt
      (if sortBy = "preco_menor" then effPriceKey x.1 else none)
      (if sortBy = "preco_menor" then effPriceKey y.1 else none)).then
  ((cmpOptDesc cmpInt
      (if sortBy = "preco_maior" then effPriceKey x.1 else none)
      (if sortBy = "preco_maior" then effPriceKey y.1 else none)).then
  ((cmpOptDesc cmpInt
      (if sortBy = "mais_vendidos" then some x.1.totalSales else none)
      (if sortBy = "mais_vendidos" then some y.1.totalSales else none)).then
  ((cmpOptDesc cmpInt
      (if sortBy = "melhor_avaliados" then some x.1.averageRating else none)
      (if sortBy = "melhor_avaliados" then some y.1.averageRating else none)).then
  ((cmpOptDesc cmpInt
      (if sortBy = "mais_recentes" then some x.1.dateCreated else none)
      (if sortBy = "mais_recentes" then some y.1.dateCreated else none)).then
  (cmpInt x.1.idProduct y.1.idProduct)))))

/-- The ORDER BY comparator as a Boolean preorder for mergeSort. -/
def listLE (sortBy : String) (x y : Product × Confectioner) : Bool :=
  decide (listOrd sortBy x y ≠ .gt)

/-- One row of the ProductList result set (columns of lines 132-149). -/
structure ProductSummary where
  idProduct : Int
  name : String
  imageUrl : Option String
  price : Option Int
  originalPrice : Option Int
  isPromotion : Bool
  averageRating : Int
  totalReviews : Int
  confectionerName : String
  available : Bool
  preparationTime : String
  deriving DecidableEq

/-- The LEFT JOIN of the primary product image, modelled as a lookup of the
first row flagged primary (by convention at most one row is). -/
def primaryImage (db : DB) (prd : Product) : Option String :=
  (db.productImages.find? fun img =>
      decide (img.idAccount = prd.idAccount) && decide (img.idProduct = prd.idProduct) &&
      img.isPrimary).map (fun img => img.imageUrl)

/-- The SELECT list of the page query applied to a joined row. -/
def mkSummary (db : DB) (pc : Product × Confectioner) : ProductSummary :=
  { idProduct := pc.1.idProduct, name := pc.1.name,
    imageUrl := primaryImage db pc.1,
    price := effPriceKey pc.1,
    originalPrice := if pc.1.isPromotion then some pc.1.basePrice else none,
    isPromotion := pc.1.isPromotion,
    averageRating := pc.1.averageRating, totalReviews := pc.1.totalReviews,
    confectionerName := pc.2.name, available := pc.1.available,
    preparationTime := pc.1.preparationTime }

/-- The Pagination result set (lines 248-252). -/
structure Pagination where
  totalItems : Nat
  totalPages : Nat
  currentPage : Int
  pageSize : Int
  deriving DecidableEq

/-- The two result sets of spProductList. -/
structure ProductListResult where
  products : List ProductSummary
  pagination : Pagination
  deriving DecidableEq

/-- [functional].[spProductList]: normalization, the paged query, and the
count query.  CEILING over FLOAT is exact at these magnitudes and equals the
natural-number ceiling division (totalItems + pageSize - 1) / pageSize. -/
def spProductList (db : DB) (p : ListParams) : ProductListResult :=
  let page := normPage p.page
  let pageSize := normPageSize p.pageSize
  let availability := normAvailability p.availability
  let pn := { p with page := page, pageSize := pageSize, availability := availability }
  let rows := matchingRows db pn
  let sorted := sortLE (listLE pn.sortBy) rows
  let offset := ((page - 1) * pageSize).toNat
  let pageRows := (sorted.drop offset).take pageSize.toNat
  let totalItems := (matchingRows db pn).length
  { products := pageRows.map (mkSummary db),
    pagination :=
      { totalItems := totalItems,
        totalPages := (totalItems + pageSize.toNat - 1) / pageSize.toNat,
        currentPage := page, pageSize := pageSize } }

/-- The raw query of GET /product as the validation layer sees it.  For the
four id-list fields the outer Option is presence of the key (undefined when
absent) and the inner Option is an explicit null, because their zod schema is
nullable but not optional. -/
structure ListQuery where
  page : Option Int
  pageSize : Option Int
  sortBy : Option String
  categoryIds : Option (Option String)
  flavorIds : Option (Option String)
  sizeIds : Option (Option String)
  minPrice : Option Int
  maxPrice : Option Int
  confectionerIds : Option (Option String)
  availability : Option String
  searchTerm : Option String
  deriving DecidableEq

/-- Validation-layer rejections of the product controller schemas. -/
inductive ValErr where
  | pageInvalid
  | pageSizeInvalid
  | sortByInvalid
  | idsRequired
  | idsTooLong
  | priceInvalid
  | availabilityInvalid
  | searchTermTooLong
  | criteriaInvalid
  deriving DecidableEq

/-- zod page: coerced integer, positive, optional with default 1. -/
def parsePage (v : Option Int) : Except ValErr Int :=
  match v with
  | none => .ok 1
  | some n => if 1 ≤ n then .ok n else .error .pageInvalid

/-- zod pageSize: coerced integer refined to {12, 24, 36}, optional with
default 12.  A provided value outside the set fails the refinement and is
rejected, not replaced. -/
def parsePageSize (v : Option Int) : Except ValErr Int :=
  match v with
  | none => .ok 12
  | some n => if n = 12 ∨ n = 24 ∨ n = 36 then .ok n else .error .pageSizeInvalid

/-- zod sortBy enum, optional with default. -/
def parseSortBy (v : Option String) : Except ValErr String :=
  match v with
  | none => .ok "relevancia"
  | some s =>
      if s = "relevancia" ∨ s = "preco_menor" ∨ s = "preco_maior" ∨
         s = "mais_vendidos" ∨ s = "melhor_avaliados" ∨ s = "mais_recentes"
      then .ok s else .error .sortByInvalid

/-- zNullableString(500): a string of at most 500 characters or null; an
absent key is rejected because the schema is nullable but not optional. -/
def parseIds (v : Option (Option String)) : Except ValErr (Option String) :=
  match v with
  | none => .error .idsRequired
  | some none => .ok none
  | some (some s) => if s.length ≤ 500 then .ok (some s) else .error .idsTooLong

/-- zod coerced non-negative number, optional. -/
def parsePrice (v : Option Int) : Except ValErr (Option Int) :=
  match v with
  | none => .ok none
  | some x => if 0 ≤ x then .ok (some x) else .error .priceInvalid

/-- zod availability enum, optional with default. -/
def parseAvailability (v : Option String) : Except ValErr String :=
  match v with
  | none => .ok "disponivel"
  | some s =>
      if s = "disponivel" ∨ s = "indisponivel" ∨ s = "todos"
      then .ok s else .error .availabilityInvalid

/-- zod searchTerm: a string of at most 100 characters, optional. -/
def parseSearchTerm (v : Option String) : Except ValErr (Option String) :=
  match v with
  | none => .ok none
  | some s => if s.length ≤ 100 then .ok (some s) else .error .searchTermTooLong

/-- The listHandler query schema, field by field in declaration order, bound
to the hardcoded credential idAccount = 1 of the CrudController. -/
def parseListQuery (q : ListQuery) : Except ValErr ListParams := do
  let page ← parsePage q.page
  let pageSize ← parsePageSize q.pageSize
  let sortBy ← parseSortBy q.sortBy
  let categoryIds ← parseIds q.categoryIds
  let flavorIds ← parseIds q.flavorIds
  let sizeIds ← parseIds q.sizeIds
  let minPrice ← parsePrice q.minPrice
  let maxPrice ← parsePrice q.maxPrice
  let confectionerIds ← parseIds q.confectionerIds
  let availability ← parseAvailability q.availability
  let searchTerm ← parseSearchTerm q.searchTerm
  pure { idAccount := 1, page := page, pageSize := pageSize, sortBy := sortBy,
         categoryIds := categoryIds, flavorIds := flavorIds, sizeIds := sizeIds,
         minPrice := minPrice, maxPrice := maxPrice, confectionerIds := confectionerIds,
         availability := availability, searchTerm := searchTerm }

/-- GET /product end to end: schema validation, then the routine call.  A
validation failure goes to next(error) and no routine runs. -/
def listPipeline (db : DB) (q : ListQuery) : Except ValErr ProductListResult :=
  match parseListQuery q with
  | .error e => .error e
  | .ok params => .ok (spProductList db params)

/-- One row of the RelatedProducts result set of spProductRelated. -/
structure RelatedRow where
  idProduct : Int
  name : String
  imageUrl : Option String
  price : Option Int
  originalPrice : Option Int
  isPromotion : Bool
  averageRating : Int
  totalReviews : Int
  confectionerName : String
  deriving DecidableEq

/-- The SELECT list shared by the three branches of spProductRelated. -/
def mkRelatedRow (db : DB) (pc : Product × Confectioner) : RelatedRow :=
  { idProduct := pc.1.idProduct, name := pc.1.name,
    imageUrl := primaryImage db pc.1,
    price := effPriceKey pc.1,
    originalPrice := if pc.1.isPromotion then some pc.1.basePrice else none,
    isPromotion := pc.1.isPromotion,
    averageRating := pc.1.averageRating, totalReviews := pc.1.totalReviews,
    confectionerName := pc.2.name }

/-- ORDER BY averageRating DESC, totalSales DESC (category and confectioner
branches). -/
def relLERating (x y : Product × Confectioner) : Bool :=
  decide (((cmpInt y.1.averageRating x.1.averageRating).then
    (cmpInt y.1.totalSales x.1.totalSales)) ≠ .gt)

/-- ORDER BY totalSales DESC, averageRating DESC (popularity branch). -/
def relLESales (x y : Product × Confectioner) : Bool :=
  decide (((cmpInt y.1.totalSales x.1.totalSales).then
    (cmpInt y.1.averageRating x.1.averageRating)) ≠ .gt)

/-- The WHERE clause common to all three branches of spProductRelated: same
tenant, not the reference product, available, in stock, neither the product
nor the confectioner deleted. -/
def relatedBasePred (idAccount idProduct : Int) (pc : Product × Confectioner) : Bool :=
  decide (pc.1.idAccount = idAccount) && decide (pc.1.idProduct ≠ idProduct) &&
  pc.1.available && decide (0 < pc.1.stock) && !pc.1.deleted && !pc.2.deleted

/-- SELECT TOP (limit) of one spProductRelated branch: base filter, the
branch-specific filter, the branch ordering, truncation. -/
def relatedSelect (db : DB) (idAccount idProduct limit : Int)
    (extraPred : Product → Bool) (le : Product × Confectioner → Product × Confectioner → Bool) :
    List RelatedRow :=
  (((sortLE le ((joinedRows db).filter fun pc =>
        relatedBasePred idAccount idProduct pc && extraPred pc.1)).take
    limit.toNat).map (mkRelatedRow db))

/-- Errors thrown by spProductRelated (the non-null INT parameters make the
IS NULL throws unrepresentable). -/
inductive RelatedErr where
  | productDoesntExist
  deriving DecidableEq

/-- spProductRelated line 73: EXISTS of a non-deleted reference product. -/
def relProductExistsB (db : DB) (idAccount idProduct : Int) : Bool :=
  db.products.any fun prd =>
    decide (prd.idAccount = idAccount) && decide (prd.idProduct = idProduct) && !prd.deleted

/-- [functional].[spProductRelated].  The result is `some rows` when one of the
three implemented branches ran and `none` when no branch matched the criteria
(then no result-set SELECT executes at all).  The criteria list accepted by
the normalization includes "sabor", but no branch below tests for it. -/
def spProductRelated (db : DB) (idAccount idProduct limit : Int) (criteria : String) :
    Except RelatedErr (Option (List RelatedRow)) :=
  let limit := if limit < 1 then 4 else limit
  let criteria :=
    if criteria = "categoria" ∨ criteria = "sabor" ∨ criteria = "confeiteiro" ∨
       criteria = "popularidade"
    then criteria else "categoria"
  if !relProductExistsB db idAccount idProduct then .error .productDoesntExist
  else
    let ref? := db.products.find? fun prd =>
      decide (prd.idAccount = idAccount) && decide (prd.idProduct = idProduct)
    let idCategory := ref?.map (fun prd => prd.idCategory)
    let idConfectioner := ref?.map (fun prd => prd.idConfectioner)
    if criteria = "categoria" then
      .ok (some (relatedSelect db idAccount idProduct limit
        (fun prd => decide (some prd.idCategory = idCategory)) relLERating))
    else if criteria = "confeiteiro" then
      .ok (some (relatedSelect db idAccount idProduct limit
        (fun prd => decide (some prd.idConfectioner = idConfectioner)) relLERating))
    else if criteria = "popularidade" then
      .ok (some (relatedSelect db idAccount idProduct limit
        (fun _ => true) relLESales))
    else .ok none

/-- The relatedHandler criteria schema: a zod enum that accepts "sabor",
optional with default "categoria". -/
def parseRelatedCriteria (v : Option String) : Except ValErr String :=
  match v with
  | none => .ok "categoria"
  | some s =>
      if s = "categoria" ∨ s = "sabor" ∨ s = "confeiteiro" ∨ s = "popularidade"
      then .ok s else .error .criteriaInvalid

/-- Ordering by flavor name for the AvailableFlavors result set. -/
def flavorNameLE (a b : Flavor) : Bool :=
  decide (a.name ≤ b.name)

/-- The AvailableFlavors result set of spProductGet (lines 138-148): flavors
joined to an available (product, flavor) association, with soft-deleted
flavors excluded, ordered by name. -/
def productGetFlavors (db : DB) (idAccount idProduct : Int) : List Flavor :=
  sortLE flavorNameLE
    (db.flavors.filter fun flv =>
      decide (flv.idAccount = idAccount) && !flv.deleted &&
      (db.productFlavors.any fun pf =>
        decide (pf.idAccount = flv.idAccount) && decide (pf.idFlavor = flv.idFlavor) &&
        decide (pf.idProduct = idProduct) && pf.available))

/-- Concrete product fixture: basePrice 20, no promotion, available, stock 5. -/
def fxProduct : Product :=
  { idProduct := 1, idAccount := 1, idCategory := 1, idConfectioner := 1,
    name := "Bolo", description := "d", ingredients := "i",
    basePrice := 20000000, promotionalPrice := none, isPromotion := false,
    available := true, stock := 5, preparationTime := "2d",
    averageRating := 4, totalReviews := 3, totalSales := 7, dateCreated := 0,
    deleted := false }

/-- Concrete confectioner fixture. -/
def fxConfectioner : Confectioner :=
  { idConfectioner := 1, idAccount := 1, name := "Ana", photo := none,
    averageRating := 4, totalProductsSold := 10, deleted := false }

/-- Concrete flavor fixture. -/
def fxFlavor : Flavor :=
  { idFlavor := 2, idAccount := 1, name := "Choc", description := "d", deleted := false }

/-- Concrete size fixture with price modifier +5. -/
def fxSize : Size :=
  { idSize := 3, idAccount := 1, name := "M", description := "d", servings := 10,
    priceModifier := 5000000, deleted := false }

/-- Concrete state fixture with no cart yet: one product, available flavor and
size associations. -/
def fxDB : DB :=
  { products := [fxProduct], confectioners := [fxConfectioner], flavors := [fxFlavor],
    sizes := [fxSize],
    productFlavors := [{ idAccount := 1, idProduct := 1, idFlavor := 2, available := true }],
    productSizes := [{ idAccount := 1, idProduct := 1, idSize := 3, available := true }],
    productImages := [], carts := [], cartItems := [], nextCartId := 1, nextCartItemId := 1 }

/-- Concrete add parameters against the fixture state. -/
def fxParams (q : Int) : AddParams :=
  { idAccount := 1, sessionId := "s", idProduct := 1, idFlavor := 2, idSize := 3,
    quantity := q, observations := none }

/-- Cart-or-create leaves every table except cart untouched. -/
theorem cartLookup_products (db : DB) (p : AddParams) :
    (cartLookup db p).1.products = db.products := by
  unfold cartLookup; split <;> rfl

/-- Cart-or-create leaves the size table untouched. -/
theorem cartLookup_sizes (db : DB) (p : AddParams) :
    (cartLookup db p).1.sizes = db.sizes := by
  unfold cartLookup; split <;> rfl

/-- Cart-or-create leaves the cart items untouched. -/
theorem cartLookup_cartItems (db : DB) (p : AddParams) :
    (cartLookup db p).1.cartItems = db.cartItems := by
  unfold cartLookup; split <;> rfl

/-- Cart-or-create leaves the cart item IDENTITY counter untouched. -/
theorem cartLookup_nextCartItemId (db : DB) (p : AddParams) :
    (cartLookup db p).1.nextCartItemId = db.nextCartItemId := by
  unfold cartLookup; split <;> rfl

/-- The price computed after the cart step equals the price computed on the
input state (the cart step only touches the cart table). -/
theorem computedUnitPrice_cartLookup (db : DB) (p : AddParams) :
    computedUnitPrice (cartLookup db p).1 p = computedUnitPrice db p := by
  unfold computedUnitPrice
  rw [cartLookup_products, cartLookup_sizes]

/-- With all seven validations passing, spCartItemAdd is its write phase. -/
theorem spCartItemAdd_checksPassed (db : DB) (p : AddParams)
    (h1 : ¬p.sessionId.length = 0) (h2 : ¬p.quantity < 1) (h3 : ¬10 < p.quantity)
    (h4 : productExistsB db p = true) (h5 : productAvailableB db p = true)
    (h6 : flavorAvailB db p = true) (h7 : sizeAvailB db p = true) :
    spCartItemAdd db p = cartWrite db p := by
  simp [spCartItemAdd, h1, h2, h3, h4, h5, h6, h7]

/-- Write-phase equation for the merge path within the quantity cap. -/
theorem cartWrite_merge_eq (db : DB) (p : AddParams) (existing : CartItem) (u : Int)
    (hit : itemLookup db p = some existing)
    (hu : computedUnitPrice db p = some u)
    (hq : ¬10 < existing.quantity + p.quantity) :
    cartWrite db p =
      .ok (mergeDB (cartLookup db p).1 existing p u, resultOf (mergedItem existing p u)) := by
  simp only [cartWrite, computedUnitPrice_cartLookup, hit, hu, if_neg hq]

/-- Write-phase equation for the merge path when the merged quantity exceeds
the cap: the THROW happens before any write. -/
theorem cartWrite_merge_overflow (db : DB) (p : AddParams) (existing : CartItem)
    (hit : itemLookup db p = some existing)
    (hq : 10 < existing.quantity + p.quantity) :
    cartWrite db p = .error .quantityExceedsMaximum := by
  simp only [cartWrite, hit, if_pos hq]

/-- Write-phase equation for the insert path. -/
theorem cartWrite_insert_eq (db : DB) (p : AddParams) (u : Int)
    (hit : itemLookup db p = none)
    (hu : computedUnitPrice db p = some u) :
    cartWrite db p =
      .ok (insertDB (cartLookup db p).1 (cartLookup db p).2 p u,
           resultOf (insertedItem (cartLookup db p).1 (cartLookup db p).2 p u)) := by
  simp only [cartWrite, computedUnitPrice_cartLookup, hit, hu]

/-- Write-phase equation when the computed unit price is NULL on the insert
path. -/
theorem cartWrite_insert_null (db : DB) (p : AddParams)
    (hit : itemLookup db p = none)
    (hu : computedUnitPrice db p = none) :
    cartWrite db p = .error .nullConstraint := by
  simp only [cartWrite, computedUnitPrice_cartLookup, hit, hu]

/-- Write-phase equation when the computed unit price is NULL on the merge
path within the cap. -/
theorem cartWrite_merge_null (db : DB) (p : AddParams) (existing : CartItem)
    (hit : itemLookup db p = some existing)
    (hu : computedUnitPrice db p = none)
    (hq : ¬10 < existing.quantity + p.quantity) :
    cartWrite db p = .error .nullConstraint := by
  simp only [cartWrite, computedUnitPrice_cartLookup, hit, hu, if_neg hq]

/-- C1 (amended): for every successful cart-item-add, the stored and returned
total price equals the freshly computed unit price (current effective price
plus size modifier) times the stored quantity; on the insert path (no prior
row for the tuple) the stored unitPrice is that computed price, so there
totalPrice = unitPrice x quantity.  The merge path leaves the previously
stored unitPrice snapshot in place, so the invariant stated over the stored
unitPrice holds only when the computed price equals the snapshot. -/
theorem cartItemAdd_totalPrice_characterization (db : DB) (p : AddParams)
    (h : (spCartItemAdd db p).isOk = true) :
    ∃ db2 res u, spCartItemAdd db p = .ok (db2, res) ∧
      computedUnitPrice db p = some u ∧
      res.totalPrice = u * res.quantity ∧
      (itemLookup db p = none →
        res.unitPrice = u ∧ res.totalPrice = res.unitPrice * res.quantity) := by
  by_cases h1 : p.sessionId.length = 0
  · simp [spCartItemAdd, h1, Except.isOk, Except.toBool] at h
  by_cases h2 : p.quantity < 1
  · simp [spCartItemAdd, h1, h2, Except.isOk, Except.toBool] at h
  by_cases h3 : 10 < p.quantity
  · simp [spCartItemAdd, h1, h2, h3, Except.isOk, Except.toBool] at h
  by_cases h4 : productExistsB db p = true
  case neg =>
    simp [spCartItemAdd, h1, h2, h3, h4, Except.isOk, Except.toBool] at h
  by_cases h5 : productAvailableB db p = true
  case neg =>
    simp [spCartItemAdd, h1, h2, h3, h4, h5, Except.isOk, Except.toBool] at h
  by_cases h6 : flavorAvailB db p = true
  case neg =>
    simp [spCartItemAdd, h1, h2, h3, h4, h5, h6, Except.isOk, Except.toBool] at h
  by_cases h7 : sizeAvailB db p = true
  case neg =>
    simp [spCartItemAdd, h1, h2, h3, h4, h5, h6, h7, Except.isOk, Except.toBool] at h
  have hadd := spCartItemAdd_checksPassed db p h1 h2 h3 h4 h5 h6 h7
  rcases hit : itemLookup db p with _ | existing
  · rcases hu : computedUnitPrice db p with _ | u
    · rw [hadd, cartWrite_insert_null db p hit hu] at h
      simp [Except.isOk, Except.toBool] at h
    · exact ⟨_, _, u, by rw [hadd, cartWrite_insert_eq db p u hit hu], rfl, rfl,
        fun _ => ⟨rfl, rfl⟩⟩
  · by_cases hq : 10 < existing.quantity + p.quantity
    · rw [hadd, cartWrite_merge_overflow db p existing hit hq] at h
      simp [Except.isOk, Except.toBool] at h
    · rcases hu : computedUnitPrice db p with _ | u
      · rw [hadd, cartWrite_merge_null db p existing hit hu hq] at h
        simp [Except.isOk, Except.toBool] at h
      · refine ⟨_, _, u, by rw [hadd, cartWrite_merge_eq db p existing u hit hu hq], rfl,
          rfl, fun hnone => ?_⟩
        simp at hnone

/-- Witness for the amended C1 theorem at the concrete fixture input. -/
theorem cartItemAdd_totalPrice_characterization_witness :
    (spCartItemAdd fxDB (fxParams 2)).isOk = true ∧
    ∃ db2 res u, spCartItemAdd fxDB (fxParams 2) = .ok (db2, res) ∧
      computedUnitPrice fxDB (fxParams 2) = some u ∧
      res.totalPrice = u * res.quantity ∧
      (itemLookup fxDB (fxParams 2) = none →
        res.unitPrice = u ∧ res.totalPrice = res.unitPrice * res.quantity) :=
  ⟨by decide, cartItemAdd_totalPrice_characterization fxDB (fxParams 2) (by decide)⟩

/-- State fixture for the C1 counterexample: the tuple already has a cart item
whose snapshot unitPrice is 10.00, while the current computed price is 25.00
(the price changed after the first add). -/
def c1DB : DB :=
  { fxDB with
    carts := [{ idCart := 1, idAccount := 1, sessionId := "s" }],
    cartItems := [{ idCartItem := 1, idAccount := 1, idCart := 1, idProduct := 1,
                    idFlavor := 2, idSize := 3, quantity := 1, unitPrice := 10000000,
                    totalPrice := 10000000, observations := none }],
    nextCartId := 2, nextCartItemId := 2 }

/-- C1 is false as stated: merging one more unit into the stale row succeeds
and leaves a row with totalPrice 50.00 = 25.00 x 2 but unitPrice 10.00,
violating totalPrice = unitPrice x quantity. -/
theorem cartItem_staleUnitPrice_counterexample :
    (cartItemAddRun c1DB (fxParams 1)).2.isOk = true ∧
    ((cartItemAddRun c1DB (fxParams 1)).1.cartItems.any fun it =>
      !decide (it.totalPrice = it.unitPrice * it.quantity)) = true := by decide

/-- C7 (amended): for every cart-item-add whose preconditions hold and which
inserts a new row (no existing cart item for the tuple), the recorded and
returned unit price is the effective product price (promotional when flagged,
else base) plus the size price modifier, and the total price is that unit
price times the requested quantity.  On the merge path the total uses the
merged quantity instead, see the counterexample. -/
theorem cartItemAdd_insert_price (db : DB) (p : AddParams) (prd : Product) (siz : Size)
    (e : Int)
    (h1 : ¬p.sessionId.length = 0) (h2 : ¬p.quantity < 1) (h3 : ¬10 < p.quantity)
    (h4 : productExistsB db p = true) (h5 : productAvailableB db p = true)
    (h6 : flavorAvailB db p = true) (h7 : sizeAvailB db p = true)
    (hit : itemLookup db p = none)
    (hprd : db.products.find? (fun x =>
      decide (x.idAccount = p.idAccount) && decide (x.idProduct = p.idProduct)) = some prd)
    (hsiz : db.sizes.find? (fun x =>
      decide (x.idAccount = p.idAccount) && decide (x.idSize = p.idSize)) = some siz)
    (heff : effPriceKey prd = some e) :
    ∃ db2 res, spCartItemAdd db p = .ok (db2, res) ∧
      res.unitPrice = e + siz.priceModifier ∧
      res.totalPrice = (e + siz.priceModifier) * p.quantity ∧
      res.quantity = p.quantity := by
  have hu : computedUnitPrice db p = some (e + siz.priceModifier) := by
    have hform : computedUnitPrice db p = (effPriceKey prd).map
        (fun basis => basis + siz.priceModifier) := by
      simp [computedUnitPrice, hprd, hsiz, effPriceKey]
    rw [hform, heff]; rfl
  exact ⟨_, _, by rw [spCartItemAdd_checksPassed db p h1 h2 h3 h4 h5 h6 h7,
    cartWrite_insert_eq db p _ hit hu], rfl, rfl, rfl⟩

/-- Witness for the amended C7 theorem: basePrice 20.00, no promotion, size
modifier +5.00, quantity 2 gives unitPrice 25.00 and totalPrice 50.00. -/
theorem cartItemAdd_insert_price_witness :
    (cartItemAddRun fxDB (fxParams 2)).2 =
      .ok { idCartItem := 1, idCart := 1, quantity := 2,
            unitPrice := 25000000, totalPrice := 50000000 } ∧
    effPriceKey fxProduct = some 20000000 ∧
    ∃ db2 res, spCartItemAdd fxDB (fxParams 2) = .ok (db2, res) ∧
      res.unitPrice = 20000000 + fxSize.priceModifier ∧
      res.totalPrice = (20000000 + fxSize.priceModifier) * (fxParams 2).quantity ∧
      res.quantity = (fxParams 2).quantity :=
  ⟨by decide, by decide,
    cartItemAdd_insert_price fxDB (fxParams 2) fxProduct fxSize 20000000
      (by decide) (by decide) (by decide) (by decide) (by decide) (by decide) (by decide)
      (by decide) (by decide) (by decide) (by decide)⟩

/-- State fixture for the C7 counterexample: the tuple already has a cart item
with quantity 1 at the current price 25.00. -/
def c7DB : DB :=
  { fxDB with
    carts := [{ idCart := 1, idAccount := 1, sessionId := "s" }],
    cartItems := [{ idCartItem := 1, idAccount := 1, idCart := 1, idProduct := 1,
                    idFlavor := 2, idSize := 3, quantity := 1, unitPrice := 25000000,
                    totalPrice := 25000000, observations := none }],
    nextCartId := 2, nextCartItemId := 2 }

/-- C7 is false as stated: adding quantity 2 to an existing row with quantity 1
returns totalPrice 75.00 = 25.00 x 3, not unit price times the requested
quantity 50.00 = 25.00 x 2. -/
theorem cartItemAdd_requestedQuantity_counterexample :
    (cartItemAddRun c7DB (fxParams 2)).2 =
      .ok { idCartItem := 1, idCart := 1, quantity := 3,
            unitPrice := 25000000, totalPrice := 75000000 } ∧
    ¬(75000000 : Int) = 25000000 * (fxParams 2).quantity := by decide

/-- C9: when a cart-item-add merges into an existing row, the stored
observations field is replaced when an observation was supplied and is kept at
its prior value when the parameter is NULL (COALESCE semantics). -/
theorem cartItemAdd_merge_observations (db : DB) (p : AddParams) (existing : CartItem)
    (u : Int)
    (h1 : ¬p.sessionId.length = 0) (h2 : ¬p.quantity < 1) (h3 : ¬10 < p.quantity)
    (h4 : productExistsB db p = true) (h5 : productAvailableB db p = true)
    (h6 : flavorAvailB db p = true) (h7 : sizeAvailB db p = true)
    (hit : itemLookup db p = some existing)
    (hq : ¬10 < existing.quantity + p.quantity)
    (hu : computedUnitPrice db p = some u) :
    ∃ db2 res, spCartItemAdd db p = .ok (db2, res) ∧
      ∀ it ∈ db2.cartItems, it.idCartItem = existing.idCartItem →
        it.observations =
          match p.observations with
          | some o => some o
          | none => existing.observations := by
  refine ⟨_, _, by rw [spCartItemAdd_checksPassed db p h1 h2 h3 h4 h5 h6 h7,
    cartWrite_merge_eq db p existing u hit hu hq], ?_⟩
  intro it hmem hid
  simp only [mergeDB, List.mem_map] at hmem
  obtain ⟨x, hx, hxe⟩ := hmem
  by_cases hc : x.idCartItem = existing.idCartItem
  · rw [if_pos hc] at hxe; rw [← hxe]; rfl
  · rw [if_neg hc] at hxe; rw [← hxe] at hid; exact absurd hid hc

/-- State fixture for the C9 witness: the existing row carries a prior
observation. -/
def c9DB : DB :=
  { fxDB with
    carts := [{ idCart := 1, idAccount := 1, sessionId := "s" }],
    cartItems := [{ idCartItem := 1, idAccount := 1, idCart := 1, idProduct := 1,
                    idFlavor := 2, idSize := 3, quantity := 2, unitPrice := 25000000,
                    totalPrice := 50000000, observations := some "old" }],
    nextCartId := 2, nextCartItemId := 2 }

/-- Add parameters carrying a new observation for the C9 witness. -/
def c9Params : AddParams :=
  { fxParams 1 with observations := some "new" }

/-- C9 witness item: the existing row of the fixture. -/
def c9Existing : CartItem :=
  { idCartItem := 1, idAccount := 1, idCart := 1, idProduct := 1,
    idFlavor := 2, idSize := 3, quantity := 2, unitPrice := 25000000,
    totalPrice := 50000000, observations := some "old" }

/-- Witness for the C9 theorem at a concrete merge input. -/
theorem cartItemAdd_merge_observations_witness :
    itemLookup c9DB c9Params = some c9Existing ∧
    ∃ db2 res, spCartItemAdd c9DB c9Params = .ok (db2, res) ∧
      ∀ it ∈ db2.cartItems, it.idCartItem = c9Existing.idCartItem →
        it.observations =
          match c9Params.observations with
          | some o => some o
          | none => c9Existing.observations :=
  ⟨by decide,
    cartItemAdd_merge_observations c9DB c9Params c9Existing 25000000
      (by decide) (by decide) (by decide) (by decide) (by decide) (by decide) (by decide)
      (by decide) (by decide) (by decide)⟩

/-- Two members of a list both satisfying a predicate that filters to at most
one element are equal. -/
theorem filter_length_le_one_unique {α : Type} {l : List α} {q : α → Bool} {a b : α}
    (h : (l.filter q).length ≤ 1) (ha : a ∈ l) (hqa : q a = true)
    (hb : b ∈ l) (hqb : q b = true) : a = b := by
  have ha2 : a ∈ l.filter q := List.mem_filter.mpr ⟨ha, hqa⟩
  have hb2 : b ∈ l.filter q := List.mem_filter.mpr ⟨hb, hqb⟩
  rcases hl : l.filter q with _ | ⟨x, xs⟩
  · rw [hl] at ha2; cases ha2
  · rw [hl] at ha2 hb2 h
    rcases xs with _ | ⟨y, ys⟩
    · simp only [List.mem_singleton] at ha2 hb2
      rw [ha2, hb2]
    · simp only [List.length_cons] at h
      omega

/-- C3: with the session having at most one cart and the tuple having exactly
the one existing row with quantity 8, adding quantity 5 fails with
quantityExceedsMaximum and the transaction wrapper returns the input state
unchanged: the row still has quantity 8, and no cart or cart item row was
created or modified. -/
theorem cartItemAdd_quantityCap_rollback (db : DB) (p : AddParams) (it0 : CartItem)
    (h1 : ¬p.sessionId.length = 0)
    (h4 : productExistsB db p = true) (h5 : productAvailableB db p = true)
    (h6 : flavorAvailB db p = true) (h7 : sizeAvailB db p = true)
    (huniq : (db.carts.filter fun c =>
      decide (c.idAccount = p.idAccount) && decide (c.sessionId = p.sessionId)).length ≤ 1)
    (hitems : tupleItems db p = [it0])
    (h8 : it0.quantity = 8) (hq5 : p.quantity = 5) :
    cartItemAddRun db p = (db, .error CartErr.quantityExceedsMaximum) := by
  have h2 : ¬p.quantity < 1 := by omega
  have h3 : ¬10 < p.quantity := by omega
  have hmem0 : it0 ∈ tupleItems db p := by
    rw [hitems]; exact List.mem_singleton.mpr rfl
  simp only [tupleItems, List.mem_filter, Bool.and_eq_true, decide_eq_true_eq,
    List.any_eq_true] at hmem0
  obtain ⟨hm, ⟨⟨⟨hacc, hprod⟩, hflv⟩, hsiz⟩, c, hc, ⟨hci, hca⟩, hcs⟩ := hmem0
  rcases hfind : db.carts.find? (fun c =>
      decide (c.idAccount = p.idAccount) && decide (c.sessionId = p.sessionId)) with _ | c1
  · exfalso
    have hno := List.find?_eq_none.mp hfind c hc
    simp [hca, hcs] at hno
  · have hc1mem := List.mem_of_find?_eq_some hfind
    have hc1pred := List.find?_some hfind
    simp only [Bool.and_eq_true, decide_eq_true_eq] at hc1pred
    obtain ⟨hc1a, hc1s⟩ := hc1pred
    have hceq : c = c1 :=
      filter_length_le_one_unique huniq hc (by simp [hca, hcs]) hc1mem (by simp [hc1a, hc1s])
    have hil : itemLookup db p = db.cartItems.find? (fun it =>
        decide (it.idAccount = p.idAccount) && decide (it.idCart = c1.idCart) &&
        decide (it.idProduct = p.idProduct) && decide (it.idFlavor = p.idFlavor) &&
        decide (it.idSize = p.idSize)) := by
      simp only [itemLookup, cartLookup, hfind]
    have hcart0 : it0.idCart = c1.idCart := by rw [← hceq, hci]
    have hit : itemLookup db p = some it0 := by
      rw [hil]
      rcases hfind2 : db.cartItems.find? (fun it =>
          decide (it.idAccount = p.idAccount) && decide (it.idCart = c1.idCart) &&
          decide (it.idProduct = p.idProduct) && decide (it.idFlavor = p.idFlavor) &&
          decide (it.idSize = p.idSize)) with _ | it2
      · exfalso
        have hno := List.find?_eq_none.mp hfind2 it0 hm
        simp [hacc, hprod, hflv, hsiz, hcart0] at hno
      · have hmem2 := List.mem_of_find?_eq_some hfind2
        have hpred2 := List.find?_some hfind2
        simp only [Bool.and_eq_true, decide_eq_true_eq] at hpred2
        obtain ⟨⟨⟨⟨ha2, hc2⟩, hp2⟩, hf2⟩, hs2⟩ := hpred2
        have hintuple : it2 ∈ tupleItems db p := by
          simp only [tupleItems, List.mem_filter, Bool.and_eq_true, decide_eq_true_eq,
            List.any_eq_true]
          exact ⟨hmem2, ⟨⟨⟨⟨ha2, hp2⟩, hf2⟩, hs2⟩, c1, hc1mem, ⟨hc2.symm, hc1a⟩, hc1s⟩⟩
        rw [hitems, List.mem_singleton] at hintuple
        rw [hfind2, hintuple]
    have hq : 10 < it0.quantity + p.quantity := by omega
    have herr : spCartItemAdd db p = .error .quantityExceedsMaximum := by
      rw [spCartItemAdd_checksPassed db p h1 h2 h3 h4 h5 h6 h7,
         cartWrite_merge_overflow db p it0 hit hq]
    simp [cartItemAddRun, herr]

/-- State fixture for the C3 witness: one cart for the session and one cart
item for the tuple with quantity 8. -/
def c3DB : DB :=
  { fxDB with
    carts := [{ idCart := 1, idAccount := 1, sessionId := "s" }],
    cartItems := [{ idCartItem := 1, idAccount := 1, idCart := 1, idProduct := 1,
                    idFlavor := 2, idSize := 3, quantity := 8, unitPrice := 25000000,
                    totalPrice := 200000000, observations := none }],
    nextCartId := 2, nextCartItemId := 2 }

/-- The existing row of the C3 fixture. -/
def c3Item : CartItem :=
  { idCartItem := 1, idAccount := 1, idCart := 1, idProduct := 1,
    idFlavor := 2, idSize := 3, quantity := 8, unitPrice := 25000000,
    totalPrice := 200000000, observations := none }

/-- Witness for the C3 theorem at a concrete state. -/
theorem cartItemAdd_quantityCap_rollback_witness :
    tupleItems c3DB (fxParams 5) = [c3Item] ∧
    cartItemAddRun c3DB (fxParams 5) = (c3DB, .error CartErr.quantityExceedsMaximum) :=
  ⟨by decide,
    cartItemAdd_quantityCap_rollback c3DB (fxParams 5) c3Item
      (by decide) (by decide) (by decide) (by decide) (by decide) (by decide)
      (by decide) (by decide) (by decide)⟩

/-- The request quantity plays no role in the cart lookup. -/
theorem cartLookup_qty (db : DB) (p : AddParams) (q : Int) :
    cartLookup db { p with quantity := q } = cartLookup db p := rfl

/-- The request quantity plays no role in the item lookup. -/
theorem itemLookup_qty (db : DB) (p : AddParams) (q : Int) :
    itemLookup db { p with quantity := q } = itemLookup db p := rfl

/-- The request quantity plays no role in the price computation. -/
theorem computedUnitPrice_qty (db : DB) (p : AddParams) (q : Int) :
    computedUnitPrice db { p with quantity := q } = computedUnitPrice db p := rfl

/-- The request quantity plays no role in the tuple row set. -/
theorem tupleItems_qty (db : DB) (p : AddParams) (q : Int) :
    tupleItems db { p with quantity := q } = tupleItems db p := rfl

/-- The product existence check only reads the product table. -/
theorem productExistsB_eq_of {dbA dbB : DB} (p : AddParams)
    (h : dbA.products = dbB.products) : productExistsB dbA p = productExistsB dbB p := by
  unfold productExistsB; rw [h]

/-- The product availability check only reads the product table. -/
theorem productAvailableB_eq_of {dbA dbB : DB} (p : AddParams)
    (h : dbA.products = dbB.products) : productAvailableB dbA p = productAvailableB dbB p := by
  unfold productAvailableB; rw [h]

/-- The flavor availability check only reads the association table. -/
theorem flavorAvailB_eq_of {dbA dbB : DB} (p : AddParams)
    (h : dbA.productFlavors = dbB.productFlavors) :
    flavorAvailB dbA p = flavorAvailB dbB p := by
  unfold flavorAvailB; rw [h]

/-- The size availability check only reads the association table. -/
theorem sizeAvailB_eq_of {dbA dbB : DB} (p : AddParams)
    (h : dbA.productSizes = dbB.productSizes) :
    sizeAvailB dbA p = sizeAvailB dbB p := by
  unfold sizeAvailB; rw [h]

/-- The price computation only reads the product and size tables. -/
theorem computedUnitPrice_eq_of {dbA dbB : DB} (p : AddParams)
    (hp : dbA.products = dbB.products) (hs : dbA.sizes = dbB.sizes) :
    computedUnitPrice dbA p = computedUnitPrice dbB p := by
  unfold computedUnitPrice; rw [hp, hs]

/-- The cart row created by the first add when the session has none. -/
def sessionCart (db : DB) (p : AddParams) : Cart :=
  { idCart := db.nextCartId, idAccount := p.idAccount, sessionId := p.sessionId }

/-- The state after the cart INSERT of lines 373-376. -/
def withNewCart (db : DB) (p : AddParams) : DB :=
  { db with carts := db.carts ++ [sessionCart db p], nextCartId := db.nextCartId + 1 }

/-- Core of the double-add argument: from any state whose cart step yields
(dbX, cid) with a session cart c2 found in dbX, where no prior cart item
matches the tuple lookup, no prior cart item is in the tuple row set over the
carts of dbX, and the IDENTITY counter is fresh, adding quantities 3 then 4
for the same tuple ends with exactly one row for the tuple, holding
quantity 7 and totalPrice = unitPrice x 7. -/
theorem addTwice_core (db dbX : DB) (p : AddParams) (u : Int) (cid : Int) (c2 : Cart)
    (h1 : ¬p.sessionId.length = 0)
    (h4 : productExistsB db p = true) (h5 : productAvailableB db p = true)
    (h6 : flavorAvailB db p = true) (h7 : sizeAvailB db p = true)
    (hu : computedUnitPrice db p = some u)
    (hclk : cartLookup db p = (dbX, cid))
    (hprojItems : dbX.cartItems = db.cartItems)
    (hprojProducts : dbX.products = db.products)
    (hprojSizes : dbX.sizes = db.sizes)
    (hprojFlavors : dbX.productFlavors = db.productFlavors)
    (hprojPSizes : dbX.productSizes = db.productSizes)
    (hprojNext : dbX.nextCartItemId = db.nextCartItemId)
    (hfindX : dbX.carts.find? (fun c =>
      decide (c.idAccount = p.idAccount) && decide (c.sessionId = p.sessionId)) = some c2)
    (hc2 : c2.idCart = cid)
    (hnew : ∀ it ∈ db.cartItems, it.idCartItem ≠ db.nextCartItemId)
    (hitem_none : ∀ it ∈ db.cartItems,
      ¬((decide (it.idAccount = p.idAccount) && decide (it.idCart = cid) &&
         decide (it.idProduct = p.idProduct) && decide (it.idFlavor = p.idFlavor) &&
         decide (it.idSize = p.idSize)) = true))
    (hexcl : ∀ it ∈ db.cartItems,
      ¬((decide (it.idAccount = p.idAccount) && decide (it.idProduct = p.idProduct) &&
         decide (it.idFlavor = p.idFlavor) && decide (it.idSize = p.idSize) &&
         (dbX.carts.any fun c =>
           decide (c.idCart = it.idCart) && decide (c.idAccount = p.idAccount) &&
           decide (c.sessionId = p.sessionId))) = true)) :
    ∃ db1 r1 db2 r2 it,
      cartItemAddRun db { p with quantity := 3 } = (db1, .ok r1) ∧
      cartItemAddRun db1 { p with quantity := 4 } = (db2, .ok r2) ∧
      tupleItems db2 p = [it] ∧
      it.quantity = 7 ∧ it.totalPrice = it.unitPrice * 7 := by
  have hc2mem : c2 ∈ dbX.carts := List.mem_of_find?_eq_some hfindX
  have hc2pred := List.find?_some hfindX
  simp only [Bool.and_eq_true, decide_eq_true_eq] at hc2pred
  obtain ⟨hc2a, hc2s⟩ := hc2pred
  -- the first add takes the insert path
  have hit1 : itemLookup db p = none := by
    simp only [itemLookup, hclk]
    rw [hprojItems, List.find?_eq_none]
    exact hitem_none
  have hrun1 : spCartItemAdd db { p with quantity := 3 } =
      .ok (insertDB dbX cid { p with quantity := 3 } u,
           resultOf (insertedItem dbX cid { p with quantity := 3 } u)) := by
    rw [spCartItemAdd_checksPassed db { p with quantity := 3 } h1
          (by show ¬(3 : Int) < 1; decide) (by show ¬(10 : Int) < 3; decide)
          h4 h5 h6 h7,
        cartWrite_insert_eq db { p with quantity := 3 } u
          (by rw [itemLookup_qty]; exact hit1) (by rw [computedUnitPrice_qty]; exact hu),
        cartLookup_qty, hclk]
  -- names for the intermediate state
  have hdb1carts : (insertDB dbX cid { p with quantity := 3 } u).carts = dbX.carts := rfl
  have hdb1items : (insertDB dbX cid { p with quantity := 3 } u).cartItems =
      db.cartItems ++ [insertedItem dbX cid { p with quantity := 3 } u] := by
    rw [show (insertDB dbX cid { p with quantity := 3 } u).cartItems =
      dbX.cartItems ++ [insertedItem dbX cid { p with quantity := 3 } u] from rfl, hprojItems]
  -- the second add finds the same cart
  have hclk2 : cartLookup (insertDB dbX cid { p with quantity := 3 } u) p =
      (insertDB dbX cid { p with quantity := 3 } u, cid) := by
    simp only [cartLookup, hdb1carts, hfindX, hc2]
  -- and merges into the row just inserted
  have hitnone1 : db.cartItems.find? (fun it =>
      decide (it.idAccount = p.idAccount) && decide (it.idCart = cid) &&
      decide (it.idProduct = p.idProduct) && decide (it.idFlavor = p.idFlavor) &&
      decide (it.idSize = p.idSize)) = none :=
    List.find?_eq_none.mpr hitem_none
  have hit2 : itemLookup (insertDB dbX cid { p with quantity := 3 } u) p =
      some (insertedItem dbX cid { p with quantity := 3 } u) := by
    simp only [itemLookup, hclk2]
    rw [hdb1items, List.find?_append, hitnone1]
    simp [insertedItem]
  have hp1 : (insertDB dbX cid { p with quantity := 3 } u).products = db.products :=
    hprojProducts
  have hs1 : (insertDB dbX cid { p with quantity := 3 } u).sizes = db.sizes :=
    hprojSizes
  have hf1 : (insertDB dbX cid { p with quantity := 3 } u).productFlavors =
      db.productFlavors := hprojFlavors
  have hz1 : (insertDB dbX cid { p with quantity := 3 } u).productSizes =
      db.productSizes := hprojPSizes
  have hu2 : computedUnitPrice (insertDB dbX cid { p with quantity := 3 } u) p = some u := by
    rw [computedUnitPrice_eq_of p hp1 hs1]
    exact hu
  have hrun2 : spCartItemAdd (insertDB dbX cid { p with quantity := 3 } u)
      { p with quantity := 4 } =
      .ok (mergeDB (insertDB dbX cid { p with quantity := 3 } u)
             (insertedItem dbX cid { p with quantity := 3 } u) { p with quantity := 4 } u,
           resultOf (mergedItem (insertedItem dbX cid { p with quantity := 3 } u)
             { p with quantity := 4 } u)) := by
    rw [spCartItemAdd_checksPassed (insertDB dbX cid { p with quantity := 3 } u)
          { p with quantity := 4 } h1
          (by show ¬(4 : Int) < 1; decide) (by show ¬(10 : Int) < 4; decide)
          (by rw [productExistsB_eq_of _ hp1]; exact h4)
          (by rw [productAvailableB_eq_of _ hp1]; exact h5)
          (by rw [flavorAvailB_eq_of _ hf1]; exact h6)
          (by rw [sizeAvailB_eq_of _ hz1]; exact h7),
        cartWrite_merge_eq (insertDB dbX cid { p with quantity := 3 } u)
          { p with quantity := 4 }
          (insertedItem dbX cid { p with quantity := 3 } u) u
          (by rw [itemLookup_qty]; exact hit2)
          (by rw [computedUnitPrice_qty]; exact hu2)
          (by show ¬(10 : Int) < 3 + 4; decide),
        cartLookup_qty, hclk2]
  -- final state of the cart item table
  have hdb2items :
      (mergeDB (insertDB dbX cid { p with quantity := 3 } u)
        (insertedItem dbX cid { p with quantity := 3 } u)
        { p with quantity := 4 } u).cartItems =
      db.cartItems ++ [mergedItem (insertedItem dbX cid { p with quantity := 3 } u)
        { p with quantity := 4 } u] := by
    rw [show (mergeDB (insertDB dbX cid { p with quantity := 3 } u)
        (insertedItem dbX cid { p with quantity := 3 } u)
        { p with quantity := 4 } u).cartItems =
      (insertDB dbX cid { p with quantity := 3 } u).cartItems.map
        (fun it => if it.idCartItem =
            (insertedItem dbX cid { p with quantity := 3 } u).idCartItem then
          mergedItem (insertedItem dbX cid { p with quantity := 3 } u)
            { p with quantity := 4 } u
          else it) from rfl, hdb1items, List.map_append]
    have holds : ∀ it ∈ db.cartItems,
        (if it.idCartItem = (insertedItem dbX cid { p with quantity := 3 } u).idCartItem then
          mergedItem (insertedItem dbX cid { p with quantity := 3 } u)
            { p with quantity := 4 } u
         else it) = it := by
      intro it hm
      refine if_neg fun heq => ?_
      exact hnew it hm (heq.trans hprojNext)
    rw [List.map_congr_left holds]
    simp
  -- the merged row is the only row of the tuple afterwards
  have hpredmerged :
      ((decide ((mergedItem (insertedItem dbX cid { p with quantity := 3 } u)
          { p with quantity := 4 } u).idAccount = p.idAccount) &&
        decide ((mergedItem (insertedItem dbX cid { p with quantity := 3 } u)
          { p with quantity := 4 } u).idProduct = p.idProduct) &&
        decide ((mergedItem (insertedItem dbX cid { p with quantity := 3 } u)
          { p with quantity := 4 } u).idFlavor = p.idFlavor) &&
        decide ((mergedItem (insertedItem dbX cid { p with quantity := 3 } u)
          { p with quantity := 4 } u).idSize = p.idSize) &&
        (dbX.carts.any fun c =>
          decide (c.idCart = (mergedItem (insertedItem dbX cid { p with quantity := 3 } u)
            { p with quantity := 4 } u).idCart) &&
          decide (c.idAccount = p.idAccount) &&
          decide (c.sessionId = p.sessionId))) = true) := by
    simp only [Bool.and_eq_true, decide_eq_true_eq, List.any_eq_true]
    exact ⟨⟨⟨⟨rfl, rfl⟩, rfl⟩, rfl⟩, c2, hc2mem, ⟨hc2, hc2a⟩, hc2s⟩
  have htuple : tupleItems
      (mergeDB (insertDB dbX cid { p with quantity := 3 } u)
        (insertedItem dbX cid { p with quantity := 3 } u)
        { p with quantity := 4 } u) p =
      [mergedItem (insertedItem dbX cid { p with quantity := 3 } u)
        { p with quantity := 4 } u] := by
    simp only [tupleItems]
    rw [show (mergeDB (insertDB dbX cid { p with quantity := 3 } u)
        (insertedItem dbX cid { p with quantity := 3 } u)
        { p with quantity := 4 } u).carts = dbX.carts from rfl]
    rw [hdb2items, List.filter_append, List.filter_eq_nil.mpr hexcl]
    simp [hpredmerged]
  refine ⟨insertDB dbX cid { p with quantity := 3 } u,
          resultOf (insertedItem dbX cid { p with quantity := 3 } u),
          mergeDB (insertDB dbX cid { p with quantity := 3 } u)
            (insertedItem dbX cid { p with quantity := 3 } u) { p with quantity := 4 } u,
          resultOf (mergedItem (insertedItem dbX cid { p with quantity := 3 } u)
            { p with quantity := 4 } u),
          mergedItem (insertedItem dbX cid { p with quantity := 3 } u)
            { p with quantity := 4 } u,
          ?_, ?_, htuple, by show (3 : Int) + 4 = 7; decide, ?_⟩
  · simp [cartItemAddRun, hrun1]
  · simp [cartItemAddRun, hrun2]
  · show u * ((3 : Int) + 4) = u * 7
    norm_num

/-- C2: in a well-formed state with no cart item for the (session, product,
flavor, size) tuple, adding the tuple with quantity 3 and then with quantity 4
(availability preconditions holding and the price being computable) leaves
exactly one cart item row for the tuple, with quantity 7 and
totalPrice = unitPrice x 7, not two rows. -/
theorem cartItemAdd_same_tuple_merges (db : DB) (p : AddParams) (u : Int)
    (h1 : ¬p.sessionId.length = 0)
    (h4 : productExistsB db p = true) (h5 : productAvailableB db p = true)
    (h6 : flavorAvailB db p = true) (h7 : sizeAvailB db p = true)
    (hwf : dbWF db = true)
    (hempty : tupleItems db p = [])
    (hu : computedUnitPrice db p = some u) :
    ∃ db1 r1 db2 r2 it,
      cartItemAddRun db { p with quantity := 3 } = (db1, .ok r1) ∧
      cartItemAddRun db1 { p with quantity := 4 } = (db2, .ok r2) ∧
      tupleItems db2 p = [it] ∧
      it.quantity = 7 ∧ it.totalPrice = it.unitPrice * 7 := by
  simp only [dbWF, Bool.and_eq_true, List.all_eq_true, decide_eq_true_eq] at hwf
  obtain ⟨hwfItems, hwfCarts⟩ := hwf
  simp only [tupleItems] at hempty
  have hempty2 := List.filter_eq_nil.mp hempty
  rcases hfind : db.carts.find? (fun c =>
      decide (c.idAccount = p.idAccount) && decide (c.sessionId = p.sessionId)) with _ | c1
  · -- no cart for the session yet: the first add creates one
    refine addTwice_core db (withNewCart db p) p u db.nextCartId (sessionCart db p)
      h1 h4 h5 h6 h7 hu ?_ rfl rfl rfl rfl rfl rfl ?_ rfl ?_ ?_ ?_
    · simp only [cartLookup, hfind]
      rfl
    · show (db.carts ++ [sessionCart db p]).find? (fun c =>
          decide (c.idAccount = p.idAccount) && decide (c.sessionId = p.sessionId)) =
        some (sessionCart db p)
      rw [List.find?_append, hfind, Option.none_or]
      exact List.find?_cons_of_pos _ (by simp [sessionCart])
    · intro it hm heq
      have := (hwfItems it hm).1
      omega
    · intro it hm hpred
      simp only [Bool.and_eq_true, decide_eq_true_eq] at hpred
      obtain ⟨⟨⟨⟨_, hcart⟩, _⟩, _⟩, _⟩ := hpred
      have := (hwfItems it hm).2
      omega
    · intro it hm hpred
      simp only [withNewCart, Bool.and_eq_true, decide_eq_true_eq, List.any_eq_true,
        List.mem_append, List.mem_singleton] at hpred
      obtain ⟨⟨⟨⟨hacc, hprod⟩, hflv⟩, hsiz⟩, c, hc | hc, hcp⟩ := hpred
      · refine hempty2 it hm ?_
        simp only [Bool.and_eq_true, decide_eq_true_eq, List.any_eq_true]
        exact ⟨⟨⟨⟨hacc, hprod⟩, hflv⟩, hsiz⟩, c, hc, hcp⟩
      · obtain ⟨⟨hci, _⟩, _⟩ := hcp
        rw [hc] at hci
        have := (hwfItems it hm).2
        simp only [sessionCart] at hci
        omega
  · -- the session already has a cart
    refine addTwice_core db db p u c1.idCart c1
      h1 h4 h5 h6 h7 hu ?_ rfl rfl rfl rfl rfl rfl hfind rfl ?_ ?_ ?_
    · simp only [cartLookup, hfind]
    · intro it hm heq
      have := (hwfItems it hm).1
      omega
    · intro it hm hpred
      have hc1mem := List.mem_of_find?_eq_some hfind
      have hc1pred := List.find?_some hfind
      simp only [Bool.and_eq_true, decide_eq_true_eq] at hc1pred hpred
      obtain ⟨hc1a, hc1s⟩ := hc1pred
      obtain ⟨⟨⟨⟨hacc, hcart⟩, hprod⟩, hflv⟩, hsiz⟩ := hpred
      refine hempty2 it hm ?_
      simp only [Bool.and_eq_true, decide_eq_true_eq, List.any_eq_true]
      exact ⟨⟨⟨⟨hacc, hprod⟩, hflv⟩, hsiz⟩, c1, hc1mem, ⟨hcart.symm, hc1a⟩, hc1s⟩
    · exact hempty2

/-- Witness for the C2 theorem at the clean fixture state. -/
theorem cartItemAdd_same_tuple_merges_witness :
    dbWF fxDB = true ∧ tupleItems fxDB (fxParams 1) = [] ∧
    computedUnitPrice fxDB (fxParams 1) = some 25000000 ∧
    ∃ db1 r1 db2 r2 it,
      cartItemAddRun fxDB { fxParams 1 with quantity := 3 } = (db1, .ok r1) ∧
      cartItemAddRun db1 { fxParams 1 with quantity := 4 } = (db2, .ok r2) ∧
      tupleItems db2 (fxParams 1) = [it] ∧
      it.quantity = 7 ∧ it.totalPrice = it.unitPrice * 7 :=
  ⟨by decide, by decide, by decide,
    cartItemAdd_same_tuple_merges fxDB (fxParams 1) 25000000
      (by decide) (by decide) (by decide) (by decide) (by decide) (by decide)
      (by decide) (by decide)⟩

/-- The write phase can only fail with the quantity cap or the NULL constraint:
no availability error originates after the validations. -/
theorem cartWrite_no_avail_error (db : DB) (p : AddParams) (e : CartErr)
    (h : cartWrite db p = .error e) :
    e = CartErr.quantityExceedsMaximum ∨ e = CartErr.nullConstraint := by
  rcases hit : itemLookup db p with _ | existing
  · rcases hu : computedUnitPrice db p with _ | u
    · rw [cartWrite_insert_null db p hit hu] at h
      cases h; exact Or.inr rfl
    · rw [cartWrite_insert_eq db p u hit hu] at h; cases h
  · by_cases hq : 10 < existing.quantity + p.quantity
    · rw [cartWrite_merge_overflow db p existing hit hq] at h
      cases h; exact Or.inl rfl
    · rcases hu : computedUnitPrice db p with _ | u
      · rw [cartWrite_merge_null db p existing hit hu hq] at h
        cases h; exact Or.inr rfl
      · rw [cartWrite_merge_eq db p existing u hit hu hq] at h; cases h

/-- State fixture for the C10 divergence: the flavor entity is soft-deleted
while its (product, flavor) association row is still available. -/
def c10DB : DB :=
  { fxDB with
    flavors := [{ idFlavor := 2, idAccount := 1, name := "Choc", description := "d",
                  deleted := true }] }

/-- C10: after the session, quantity and product validations pass, cart-item-add
raises flavorNotAvailable exactly when no available (product, flavor)
association row exists, and sizeNotAvailable exactly when the flavor
association is available but no available (product, size) association row
exists; neither check consults the flavor or size entity soft-deletion flag.
Hence in the concrete state whose flavor entity is soft-deleted while its
association row is available, the add succeeds even though the product-detail
flavor list excludes that flavor. -/
theorem cartItemAdd_flavor_size_checks (db : DB) (p : AddParams)
    (h1 : ¬p.sessionId.length = 0) (h2 : ¬p.quantity < 1) (h3 : ¬10 < p.quantity)
    (h4 : productExistsB db p = true) (h5 : productAvailableB db p = true) :
    (spCartItemAdd db p = .error CartErr.flavorNotAvailable ↔ flavorAvailB db p = false) ∧
    (spCartItemAdd db p = .error CartErr.sizeNotAvailable ↔
      (flavorAvailB db p = true ∧ sizeAvailB db p = false)) ∧
    (spCartItemAdd c10DB (fxParams 1)).isOk = true ∧
    (c10DB.flavors.any fun flv => decide (flv.idFlavor = 2) && flv.deleted) = true ∧
    (c10DB.productFlavors.any fun pf => decide (pf.idFlavor = 2) && pf.available) = true ∧
    ((productGetFlavors c10DB 1 1).all fun flv => !decide (flv.idFlavor = 2)) = true := by
  refine ⟨?_, ?_, by decide, by decide, by decide, by decide⟩
  · constructor
    · intro hl
      cases hfb : flavorAvailB db p
      · rfl
      · exfalso
        by_cases h7 : sizeAvailB db p = true
        · rw [spCartItemAdd_checksPassed db p h1 h2 h3 h4 h5 hfb h7] at hl
          rcases cartWrite_no_avail_error db p _ hl with h | h <;> cases h
        · have h7f : sizeAvailB db p = false := by
            cases hsb : sizeAvailB db p
            · rfl
            · exact absurd hsb h7
          have hsz : spCartItemAdd db p = .error CartErr.sizeNotAvailable := by
            simp [spCartItemAdd, h1, h2, h3, h4, h5, hfb, h7f]
          rw [hsz] at hl
          cases hl
    · intro hfb
      simp [spCartItemAdd, h1, h2, h3, h4, h5, hfb]
  · constructor
    · intro hl
      cases hfb : flavorAvailB db p
      · exfalso
        have hfl : spCartItemAdd db p = .error CartErr.flavorNotAvailable := by
          simp [spCartItemAdd, h1, h2, h3, h4, h5, hfb]
        rw [hfl] at hl
        cases hl
      · refine ⟨rfl, ?_⟩
        cases hsb : sizeAvailB db p
        · rfl
        · exfalso
          rw [spCartItemAdd_checksPassed db p h1 h2 h3 h4 h5 hfb hsb] at hl
          rcases cartWrite_no_avail_error db p _ hl with h | h <;> cases h
    · rintro ⟨hfb, hsb⟩
      simp [spCartItemAdd, h1, h2, h3, h4, h5, hfb, hsb]

/-- Witness for the C10 theorem at the soft-deleted-flavor state. -/
theorem cartItemAdd_flavor_size_checks_witness :
    productExistsB c10DB (fxParams 1) = true ∧
    productAvailableB c10DB (fxParams 1) = true ∧
    ((spCartItemAdd c10DB (fxParams 1) = .error CartErr.flavorNotAvailable ↔
        flavorAvailB c10DB (fxParams 1) = false) ∧
      (spCartItemAdd c10DB (fxParams 1) = .error CartErr.sizeNotAvailable ↔
        (flavorAvailB c10DB (fxParams 1) = true ∧ sizeAvailB c10DB (fxParams 1) = false)) ∧
      (spCartItemAdd c10DB (fxParams 1)).isOk = true ∧
      (c10DB.flavors.any fun flv => decide (flv.idFlavor = 2) && flv.deleted) = true ∧
      (c10DB.productFlavors.any fun pf => decide (pf.idFlavor = 2) && pf.available) = true ∧
      ((productGetFlavors c10DB 1 1).all fun flv => !decide (flv.idFlavor = 2)) = true) :=
  ⟨by decide, by decide,
    cartItemAdd_flavor_size_checks c10DB (fxParams 1)
      (by decide) (by decide) (by decide) (by decide) (by decide)⟩

/-- Concrete listing query whose only invalid field is pageSize = 13 (the
id-list fields are explicit nulls, which their nullable schema accepts). -/
def q13 : ListQuery :=
  { page := some 1, pageSize := some 13, sortBy := some "relevancia",
    categoryIds := some none, flavorIds := some none, sizeIds := some none,
    minPrice := none, maxPrice := none, confectionerIds := some none,
    availability := some "disponivel", searchTerm := none }

/-- Concrete routine parameters with the invalid pageSize 13. -/
def fxListParams13 : ListParams :=
  { idAccount := 1, page := 1, pageSize := 13, sortBy := "relevancia",
    categoryIds := none, flavorIds := none, sizeIds := none,
    minPrice := none, maxPrice := none, confectionerIds := none,
    availability := "disponivel", searchTerm := none }

/-- C4 is false as stated: a request with pageSize 13 is rejected by the
validation layer with a pageSize error instead of falling back to 12 and
returning a result page. -/
theorem listPipeline_pageSize13_counterexample :
    listPipeline fxDB q13 = .error ValErr.pageSizeInvalid := by decide

/-- C4 (amended): a provided pageSize outside {12, 24, 36} fails the zod
refinement, so the full pipeline rejects the request with a validation error
and the routine never runs; the silent fallback to 12 lives only inside the
routine, which normalizes any invalid pageSize to 12. -/
theorem listPipeline_pageSize_rejects (db : DB) (q : ListQuery) (n : Int) (p : ListParams)
    (hq : q.pageSize = some n) (hn : ¬(n = 12 ∨ n = 24 ∨ n = 36))
    (hpsz : p.pageSize = n) :
    (∃ e, listPipeline db q = .error e) ∧
    (spProductList db p).pagination.pageSize = 12 := by
  constructor
  · have hps : parsePageSize q.pageSize = .error ValErr.pageSizeInvalid := by
      rw [hq]; simp [parsePageSize, hn]
    rcases hp : parsePage q.page with e | pg
    · exact ⟨e, by simp [listPipeline, parseListQuery, hp, Bind.bind, Except.bind]⟩
    · exact ⟨ValErr.pageSizeInvalid,
        by simp [listPipeline, parseListQuery, hp, hps, Bind.bind, Except.bind]⟩
  · show normPageSize p.pageSize = 12
    rw [hpsz]
    simp [normPageSize, hn]

/-- Witness for the amended C4 theorem at the concrete query. -/
theorem listPipeline_pageSize_rejects_witness :
    q13.pageSize = some 13 ∧ ¬((13 : Int) = 12 ∨ (13 : Int) = 24 ∨ (13 : Int) = 36) ∧
    fxListParams13.pageSize = 13 ∧
    ((∃ e, listPipeline fxDB q13 = .error e) ∧
      (spProductList fxDB fxListParams13).pagination.pageSize = 12) :=
  ⟨by decide, by decide, by decide,
    listPipeline_pageSize_rejects fxDB q13 13 fxListParams13 (by decide) (by decide)
      (by decide)⟩

/-- C5 (amended): over the full match set of the listing query, availability
"disponivel" selects exactly the otherwise-matching rows with the available
flag set and stock strictly positive, and "indisponivel" selects exactly the
otherwise-matching rows with the flag unset or stock exactly zero (not
stock <= 0: a row with negative stock matches neither filter). -/
theorem productList_availability_filter (db : DB) (p : ListParams)
    (prd : Product) (cnf : Confectioner) :
    ((prd, cnf) ∈ matchingRows db { p with availability := "disponivel" } ↔
      ((prd, cnf) ∈ matchingRows db { p with availability := "todos" } ∧
       prd.available = true ∧ 0 < prd.stock)) ∧
    ((prd, cnf) ∈ matchingRows db { p with availability := "indisponivel" } ↔
      ((prd, cnf) ∈ matchingRows db { p with availability := "todos" } ∧
       (prd.available = false ∨ prd.stock = 0))) := by
  simp only [matchingRows, List.mem_filter, listPred, availabilityPred,
    Bool.and_eq_true, Bool.or_eq_true, decide_eq_true_eq, Bool.not_eq_true']
  norm_num
  tauto

/-- Product with negative stock for the C5 counterexample. -/
def c5Product : Product := { fxProduct with stock := -1 }

/-- State fixture for the C5 counterexample. -/
def c5DB : DB := { fxDB with products := [c5Product] }

/-- Listing parameters for the C5 counterexample. -/
def c5Params (avail : String) : ListParams :=
  { idAccount := 1, page := 1, pageSize := 12, sortBy := "relevancia",
    categoryIds := none, flavorIds := none, sizeIds := none, minPrice := none,
    maxPrice := none, confectionerIds := none, availability := avail, searchTerm := none }

/-- C5 is false as stated for the "unavailable" direction: a product with
available flag true and stock -1 falsifies available AND stock > 0, yet the
"indisponivel" filter does not return it (it tests stock = 0, not
stock <= 0), so the product appears under neither availability filter. -/
theorem productList_negativeStock_counterexample :
    (c5Product, fxConfectioner) ∈ matchingRows c5DB (c5Params "todos") ∧
    ¬(c5Product.available = true ∧ 0 < c5Product.stock) ∧
    (c5Product, fxConfectioner) ∉ matchingRows c5DB (c5Params "indisponivel") ∧
    (c5Product, fxConfectioner) ∉ matchingRows c5DB (c5Params "disponivel") ∧
    (spProductList c5DB (c5Params "indisponivel")).products = [] := by decide

/-- Ceiling division over the naturals agrees with the rational ceiling. -/
theorem natCeilDiv_eq (a b : Nat) (hb : 0 < b) :
    (a + b - 1) / b = ⌈(a : ℚ) / (b : ℚ)⌉₊ := by
  have hbq : (0 : ℚ) < (b : ℚ) := by exact_mod_cast hb
  rcases Nat.eq_zero_or_pos a with ha | ha
  · subst ha
    have h1 : (0 + b - 1) / b = 0 := Nat.div_eq_of_lt (by omega)
    rw [h1]
    symm
    simp
  · have hub : (a + b - 1) / b * b ≤ a + b - 1 := Nat.div_mul_le_self _ _
    have hlb : a + b - 1 < ((a + b - 1) / b + 1) * b := by
      rw [← Nat.div_lt_iff_lt_mul hb]
      omega
    have hexp : ((a + b - 1) / b + 1) * b = (a + b - 1) / b * b + b := by ring
    have hle1 : a ≤ (a + b - 1) / b * b := by omega
    refine Nat.le_antisymm ?_ ?_
    · rcases Nat.eq_zero_or_pos ((a + b - 1) / b) with hz | hpos
      · rw [hz]
        exact Nat.zero_le _
      · have hmul : b ≤ (a + b - 1) / b * b := Nat.le_mul_of_pos_left b hpos
        have hsub : ((a + b - 1) / b - 1) * b = (a + b - 1) / b * b - b := by
          rw [Nat.sub_one_mul]
        have hlt : ((a + b - 1) / b - 1) * b < a := by omega
        have hltq : (((a + b - 1) / b - 1 : Nat) : ℚ) < (a : ℚ) / (b : ℚ) := by
          rw [lt_div_iff hbq]
          exact_mod_cast hlt
        have hceil := Nat.lt_ceil.mpr hltq
        omega
    · refine Nat.ceil_le.mpr ?_
      rw [div_le_iff hbq]
      exact_mod_cast hle1

/-- The parameter normalization performed at the top of spProductList. -/
def normParams (p : ListParams) : ListParams :=
  { p with page := normPage p.page, pageSize := normPageSize p.pageSize,
           availability := normAvailability p.availability }

/-- C6: for every listing query, the returned pagination metadata counts the
rows of the shared match set, totalPages is the ceiling of totalItems over
the (normalized) pageSize, and the number of product summaries on the page is
at most pageSize. -/
theorem productList_pagination (db : DB) (p : ListParams) :
    (spProductList db p).pagination.totalItems = (matchingRows db (normParams p)).length ∧
    (spProductList db p).pagination.totalPages =
      ⌈((spProductList db p).pagination.totalItems : ℚ) /
        ((spProductList db p).pagination.pageSize : ℚ)⌉₊ ∧
    (spProductList db p).products.length ≤ (spProductList db p).pagination.pageSize.toNat := by
  have hps : normPageSize p.pageSize = 12 ∨ normPageSize p.pageSize = 24 ∨
      normPageSize p.pageSize = 36 := by
    unfold normPageSize
    split
    · assumption
    · left; rfl
  have hpos : 0 < (normPageSize p.pageSize).toNat := by
    rcases hps with h | h | h <;> rw [h] <;> decide
  have hcast : (((normPageSize p.pageSize).toNat : ℚ)) =
      ((normPageSize p.pageSize : Int) : ℚ) := by
    rcases hps with h | h | h <;> rw [h] <;>
      norm_num [show Int.toNat 12 = 12 from rfl, show Int.toNat 24 = 24 from rfl,
        show Int.toNat 36 = 36 from rfl]
  have e1 : (spProductList db p).pagination.totalItems =
      (matchingRows db (normParams p)).length := rfl
  have e2 : (spProductList db p).pagination.totalPages =
      ((matchingRows db (normParams p)).length +
        (normPageSize p.pageSize).toNat - 1) / (normPageSize p.pageSize).toNat := rfl
  have e3 : (spProductList db p).pagination.pageSize = normPageSize p.pageSize := rfl
  have e4 : (spProductList db p).products =
      ((((sortLE (listLE p.sortBy) (matchingRows db (normParams p))).drop
        ((normPage p.page - 1) * normPageSize p.pageSize).toNat).take
        (normPageSize p.pageSize).toNat)).map (mkSummary db) := rfl
  refine ⟨e1, ?_, ?_⟩
  · rw [e1, e2, e3, natCeilDiv_eq _ _ hpos, hcast]
  · rw [e4, e3, List.length_map]
    exact List.length_take_le _ _

/-- C8: the related-products schema accepts the criteria value "sabor", the
routine keeps it through its normalization, but no branch implements it, so
for an existing reference product the call yields no result set at all. -/
theorem productRelated_sabor_empty (db : DB) (idAccount idProduct limit : Int)
    (h : relProductExistsB db idAccount idProduct = true) :
    parseRelatedCriteria (some "sabor") = .ok "sabor" ∧
    spProductRelated db idAccount idProduct limit "sabor" = .ok none := by
  refine ⟨by decide, ?_⟩
  simp [spProductRelated, h]

/-- Witness for the C8 theorem at the concrete fixture state. -/
theorem productRelated_sabor_empty_witness :
    relProductExistsB fxDB 1 1 = true ∧
    (parseRelatedCriteria (some "sabor") = .ok "sabor" ∧
      spProductRelated fxDB 1 1 4 "sabor" = .ok none) :=
  ⟨by decide, productRelated_sabor_empty fxDB 1 1 4 (by decide)⟩

end LoveCakes
